import Mathlib

/-!
Shallow embedding of the mock profile service in `src/mock-server/server.js`:
the in-memory `users` map, the `GET /api/users/:userId` handler and the
`PUT /api/users/:userId` handler, modelled as pure functions threading the
map explicitly.  JSON string fields that may be `undefined`/`null` are
modelled as `Option String` (with `none` for absent/null); JavaScript
falsiness of such a field is absence or the empty string.
-/

namespace MockServer

/-- The UserProfile record stored in the `users` map (server.js lines 12-37). -/
structure User where
  id : String
  email : String
  firstName : String
  lastName : String
  phoneNumber : Option String
  bio : Option String
deriving DecidableEq

/-- The JSON body of a PUT request.  The handler destructures exactly
`email, firstName, lastName, phoneNumber, bio` from `req.body`; an `id`
property that a client may also send is never read, so it is carried here
to show it is ignored.  `none` models an absent or `null` property. -/
structure Payload where
  id : Option String
  email : Option String
  firstName : Option String
  lastName : Option String
  phoneNumber : Option String
  bio : Option String
deriving DecidableEq

/-- A JSON response body: either a full user record (`res.json(user)`)
or an object with a single `message` field. -/
inductive Body where
  | user (u : User)
  | message (m : String)
deriving DecidableEq

/-- An HTTP response: status code and JSON body. -/
structure Response where
  status : Nat
  body : Body
deriving DecidableEq

def user1 : User :=
  { id := "1"
    email := "john.doe@example.com"
    firstName := "John"
    lastName := "Doe"
    phoneNumber := some "+1-555-123-4567"
    bio := some "Software engineer passionate about building great user experiences." }

def user2 : User :=
  { id := "2"
    email := "jane.smith@example.com"
    firstName := "Jane"
    lastName := "Smith"
    phoneNumber := none
    bio := some "Product designer who loves creating intuitive interfaces." }

def user3 : User :=
  { id := "3"
    email := "bob.wilson@example.com"
    firstName := "Bob"
    lastName := "Wilson"
    phoneNumber := some "+1-555-987-6543"
    bio := none }

/-- The in-memory database seeded at startup (server.js lines 12-37),
as a map from identifier to record. -/
def users : String → Option User := fun id =>
  if id = "1" then some user1
  else if id = "2" then some user2
  else if id = "3" then some user3
  else none

/-- JavaScript falsiness of an optional string property: `!x` is true
exactly when the property is absent, `null`, or the empty string. -/
def falsy : Option String → Bool
  | none => true
  | some s => s.isEmpty

/-- The normalization `x || null` applied to the optional fields
(server.js lines 103-104): a falsy value becomes `null`. -/
def orNull : Option String → Option String
  | none => none
  | some s => if s.isEmpty then none else some s

/-- JavaScript regex `\s` (whitespace) character class. -/
def jsWhitespace (c : Char) : Bool :=
  c == ' ' || c == '\t' || c == '\n' || c == '\x0b' || c == '\x0c' || c == '\r' ||
  c == '\u00A0' || c == '\u1680' ||
  (0x2000 <= c.val.toNat && c.val.toNat <= 0x200A) ||
  c == '\u2028' || c == '\u2029' || c == '\u202F' || c == '\u205F' ||
  c == '\u3000' || c == '\uFEFF'

/-- A character matched by `[^\s@]` in the email regex. -/
def isLocalChar (c : Char) : Bool := !(jsWhitespace c) && c != '@'

/-- `emailRegex.test` for `/^[^\s@]+@[^\s@]+\.[^\s@]+$/` (server.js line 91).
A string matches iff it splits as `A ++ "@" ++ B ++ "." ++ C` with `A`, `B`,
`C` nonempty and free of whitespace and `@`.  Since no part may contain `@`,
the `@` of the split is the first (and only) `@` of the string, and the part
after it must contain a `.` that is neither its first nor its last
character (the regex backtracks over every candidate `.`). -/
def emailRegexTest (s : String) : Bool :=
  let cs := s.toList
  let localPart := cs.takeWhile (fun c => c != '@')
  match cs.dropWhile (fun c => c != '@') with
  | [] => false
  | _ :: domain =>
      !localPart.isEmpty && localPart.all isLocalChar &&
      domain.all isLocalChar &&
      (domain.drop 1).dropLast.contains '.'

/-- The `GET /api/users/:userId` handler (server.js lines 43-63): looks up
the identifier and returns either the stored record or a 404, leaving the
map as it was. -/
def getUser (db : String → Option User) (userId : String) :
    Response × (String → Option User) :=
  match db userId with
  | none =>
      ({ status := 404
         body := .message ("User with ID " ++ userId ++ " not found") }, db)
  | some user => ({ status := 200, body := .user user }, db)

/-- The record written by a successful update (server.js lines 98-105):
`{...user, email, firstName, lastName, phoneNumber: phoneNumber || null,
bio: bio || null}` — every field of the spread except `id` is overwritten
by the payload, with the optional fields normalized by `|| null`.
The required fields are known non-falsy at this point, so `getD ""` only
names the string they hold. -/
def mergeRecord (i : String) (p : Payload) : User :=
  { id := i
    email := p.email.getD ""
    firstName := p.firstName.getD ""
    lastName := p.lastName.getD ""
    phoneNumber := orNull p.phoneNumber
    bio := orNull p.bio }

/-- The `PUT /api/users/:userId` handler (server.js lines 66-107):
lookup, required-field check, email-format check, then write-back of the
merged record and a 200 response carrying it. -/
def putUser (db : String → Option User) (userId : String) (p : Payload) :
    Response × (String → Option User) :=
  match db userId with
  | none =>
      ({ status := 404
         body := .message ("User with ID " ++ userId ++ " not found") }, db)
  | some user =>
      if falsy p.email || falsy p.firstName || falsy p.lastName then
        ({ status := 400
           body := .message "Email, firstName, and lastName are required fields" }, db)
      else if !emailRegexTest (p.email.getD "") then
        ({ status := 400, body := .message "Invalid email format" }, db)
      else
        let updated := mergeRecord user.id p
        ({ status := 200, body := .user updated },
         Function.update db userId (some updated))

/-!
The functions above model the handlers on the path where `users[userId]`
hits an own property of the `users` object.  JavaScript property access
also consults the prototype chain, so for identifiers such as "toString"
or "hasOwnProperty" the lookup yields a truthy inherited value of
`Object.prototype` and the `if (!user)` not-found branch is skipped even
though no record is stored.  The definitions below embed that full
semantics; refinement lemmas further down show the simple model is exactly
the own-property hit path of this one.
-/

/-- A plain-object record held by the `users` object: the three seed
records and every object the update handler writes.  `id := none` models
an object with no `id` property at all (created when the spread source
contributed none); `phoneNumber`/`bio` are properties whose value may be
`null`.  `strSpread := some s` models the character-indexed own
properties that spreading an inherited string value contributes
(`\x7b...s\x7d` copies the enumerable index properties of the string). -/
structure JsRecord where
  strSpread : Option String
  id : Option String
  email : String
  firstName : String
  lastName : String
  phoneNumber : Option String
  bio : Option String
deriving DecidableEq

/-- The seed records and ordinary updated records as plain objects. -/
def toJsRecord (u : User) : JsRecord :=
  { strSpread := none, id := some u.id, email := u.email
    firstName := u.firstName, lastName := u.lastName
    phoneNumber := u.phoneNumber, bio := u.bio }

/-- The mutable state of the `users` object: its own enumerable data
properties, and its prototype — `none` while the prototype is still
`Object.prototype`, `some r` once a `PUT /api/users/__proto__` has made
the inherited accessor replace it with the written plain object `r`. -/
structure UsersState where
  own : String → Option JsRecord
  protoReplaced : Option JsRecord

/-- The own property names of `Object.prototype` (besides the accessor
`__proto__`, handled separately): for any of these names, property access
on a plain object whose prototype chain reaches `Object.prototype` yields
the inherited built-in function, a truthy value. -/
def objectProtoMembers : List String :=
  ["constructor", "hasOwnProperty", "isPrototypeOf", "propertyIsEnumerable",
   "toLocaleString", "toString", "valueOf",
   "__defineGetter__", "__defineSetter__", "__lookupGetter__", "__lookupSetter__"]

/-- The value produced by the JavaScript property read `users[userId]`:
an own or inherited record object, an inherited string field value, an
inherited built-in function, `Object.prototype` itself (read through the
`__proto__` getter), or a falsy result (`undefined`, or an inherited
`null` field value — both fail the `if (!user)` check identically). -/
inductive JsLookup where
  | obj (r : JsRecord)
  | strVal (s : String)
  | builtinFn (name : String)
  | objectProto
  | nullOrUndef
deriving DecidableEq

/-- Reading own property `k` of a plain record object: `some (some s)` a
string-valued property, `some none` a property holding `null`, `none` no
such own property.  The trailing branch reads a character-indexed
property created by spreading a string. -/
def recField (r : JsRecord) (k : String) : Option (Option String) :=
  if k = "id" then r.id.map some
  else if k = "email" then some (some r.email)
  else if k = "firstName" then some (some r.firstName)
  else if k = "lastName" then some (some r.lastName)
  else if k = "phoneNumber" then some r.phoneNumber
  else if k = "bio" then some r.bio
  else
    match r.strSpread with
    | some s =>
        match (List.range s.length).find? (fun i => toString i = k) with
        | some i => some (some (String.mk [s.toList.getD i ' ']))
        | none => none
    | none => none

/-- The full JavaScript lookup `users[userId]`: own properties first, then
the prototype chain — the replaced prototype object's data properties when
present, then `Object.prototype` (its methods, and the `__proto__` getter
returning the current prototype). -/
def jsLookup (st : UsersState) (k : String) : JsLookup :=
  match st.own k with
  | some r => .obj r
  | none =>
      let fromObjectProto : JsLookup :=
        if k = "__proto__" then
          match st.protoReplaced with
          | none => .objectProto
          | some p => .obj p
        else if objectProtoMembers.contains k then .builtinFn k
        else .nullOrUndef
      match st.protoReplaced with
      | none => fromObjectProto
      | some p =>
          match recField p k with
          | some (some s) => .strVal s
          | some none => .nullOrUndef
          | none => fromObjectProto

/-- JavaScript truthiness of the looked-up value, as tested by
`if (!user)`: objects and functions are truthy, a string is truthy unless
empty, `undefined`/`null` are falsy. -/
def jsTruthy : JsLookup → Bool
  | .obj _ => true
  | .strVal s => !s.isEmpty
  | .builtinFn _ => true
  | .objectProto => true
  | .nullOrUndef => false

/-- A JSON response body of the faithful model: a record object, a bare
JSON string, the empty body Express sends when `JSON.stringify` of the
value is undefined (functions), the empty object that `Object.prototype`
serializes to (all its properties are non-enumerable), or a message
object. -/
inductive JsBody where
  | record (r : JsRecord)
  | str (s : String)
  | emptyBody
  | emptyObject
  | message (m : String)
deriving DecidableEq

/-- An HTTP response of the faithful model. -/
structure JsResponse where
  status : Nat
  body : JsBody
deriving DecidableEq

/-- `res.json(user)` on a truthy looked-up value. -/
def jsJson : JsLookup → JsBody
  | .obj r => .record r
  | .strVal s => .str s
  | .builtinFn _ => .emptyBody
  | .objectProto => .emptyObject
  | .nullOrUndef => .emptyBody

/-- The JavaScript assignment `users[userId] = v`: an existing own data
property is overwritten; otherwise, for `userId = "__proto__"` the
inherited accessor on `Object.prototype` replaces the object's prototype
with `v` and creates no own property; every other name creates (or
shadows) an own property. -/
def jsAssign (st : UsersState) (k : String) (v : JsRecord) : UsersState :=
  match st.own k with
  | some _ => { st with own := Function.update st.own k (some v) }
  | none =>
      if k = "__proto__" then { st with protoReplaced := some v }
      else { st with own := Function.update st.own k (some v) }

/-- The `id` contributed by `\x7b...user\x7d`: the record's own `id`
property when the spread source is a record object, nothing for a string,
a built-in function, or `Object.prototype` (no own enumerable `id`). -/
def spreadId : JsLookup → Option String
  | .obj r => r.id
  | _ => none

/-- The character-indexed own properties contributed by the spread: those
of a record object, the characters of a string, nothing otherwise. -/
def spreadChars : JsLookup → Option String
  | .obj r => r.strSpread
  | .strVal s => some s
  | _ => none

/-- The `GET /api/users/:userId` handler over the faithful lookup
semantics (server.js lines 43-63). -/
def jsGetUser (st : UsersState) (k : String) : JsResponse × UsersState :=
  let user := jsLookup st k
  if jsTruthy user = false then
    ({ status := 404, body := .message ("User with ID " ++ k ++ " not found") }, st)
  else
    ({ status := 200, body := jsJson user }, st)

/-- The `PUT /api/users/:userId` handler over the faithful lookup and
assignment semantics (server.js lines 66-107); the response body re-reads
`users[userId]` after the assignment, as the source does. -/
def jsPutUser (st : UsersState) (k : String) (p : Payload) :
    JsResponse × UsersState :=
  let user := jsLookup st k
  if jsTruthy user = false then
    ({ status := 404, body := .message ("User with ID " ++ k ++ " not found") }, st)
  else if falsy p.email || falsy p.firstName || falsy p.lastName then
    ({ status := 400
       body := .message "Email, firstName, and lastName are required fields" }, st)
  else if !emailRegexTest (p.email.getD "") then
    ({ status := 400, body := .message "Invalid email format" }, st)
  else
    let updated : JsRecord :=
      { strSpread := spreadChars user
        id := spreadId user
        email := p.email.getD ""
        firstName := p.firstName.getD ""
        lastName := p.lastName.getD ""
        phoneNumber := orNull p.phoneNumber
        bio := orNull p.bio }
    let st2 := jsAssign st k updated
    ({ status := 200, body := jsJson (jsLookup st2 k) }, st2)

/-- A map of full records viewed as the state of the `users` object with
an untouched prototype. -/
def liftDb (db : String → Option User) : UsersState :=
  { own := fun k => (db k).map toJsRecord, protoReplaced := none }

/-- The state of the `users` object at startup. -/
def initialState : UsersState := liftDb users

/-- A simple-model body viewed in the faithful model. -/
def liftBody : Body → JsBody
  | .user u => .record (toJsRecord u)
  | .message m => .message m

/-- A simple-model response viewed in the faithful model. -/
def liftResponse (r : Response) : JsResponse :=
  { status := r.status, body := liftBody r.body }

/-- The empty JSON object as a PUT payload. -/
def emptyPayload : Payload :=
  { id := none, email := none, firstName := none, lastName := none
    phoneNumber := none, bio := none }

/-- A payload with the required email missing, for concrete instantiation. -/
def payloadMissingEmail : Payload :=
  { id := none, email := none, firstName := some "John", lastName := some "Doe"
    phoneNumber := none, bio := none }

/-- A payload whose email fails the format check, for concrete instantiation. -/
def payloadBadEmail : Payload :=
  { id := none, email := some "not-an-email", firstName := some "John"
    lastName := some "Doe", phoneNumber := none, bio := none }

/-- A valid payload omitting both optional fields, for concrete instantiation. -/
def payloadValid : Payload :=
  { id := none, email := some "new.email@example.com", firstName := some "Johnny"
    lastName := some "Doette", phoneNumber := none, bio := some "Updated profile." }

/-- A valid payload that also sends an `id` property and an empty-string
optional field, for concrete instantiation. -/
def payloadValid2 : Payload :=
  { id := some "999", email := some "second@site.org", firstName := some "Ann"
    lastName := some "Lee", phoneNumber := some "", bio := none }

/-- Shared helper: the success path of the PUT handler writes and returns
the merged record. -/
theorem putUser_success (db : String → Option User) (userId : String) (u : User)
    (p : Payload) (h : db userId = some u)
    (he : falsy p.email = false) (hf : falsy p.firstName = false)
    (hl : falsy p.lastName = false)
    (hok : emailRegexTest (p.email.getD "") = true) :
    putUser db userId p =
      ({ status := 200, body := .user (mergeRecord u.id p) },
       Function.update db userId (some (mergeRecord u.id p))) := by
  simp [putUser, h, he, hf, hl, hok]

/-- Shared helper: on an identifier with a stored record, the faithful
lookup hits the own property and yields its record. -/
theorem jsLookup_lift_hit (db : String → Option User) (k : String) (u : User)
    (h : db k = some u) : jsLookup (liftDb db) k = .obj (toJsRecord u) := by
  simp [jsLookup, liftDb, h]

/-- Shared helper: lifting commutes with writing a record. -/
theorem liftDb_update (db : String → Option User) (k : String) (m : User) :
    liftDb (Function.update db k (some m)) =
      { own := Function.update (liftDb db).own k (some (toJsRecord m))
        protoReplaced := none } := by
  unfold liftDb
  congr 1
  funext j
  by_cases hj : j = k
  · subst hj
    simp [Function.update_same]
  · simp [Function.update_noteq hj]

/-- Shared helper: on an identifier with a stored record the faithful GET
agrees with the simple model — `getUser` is exactly the own-property hit
path of `jsGetUser`. -/
theorem jsGetUser_refines_getUser (db : String → Option User) (k : String)
    (u : User) (h : db k = some u) :
    jsGetUser (liftDb db) k =
      (liftResponse (getUser db k).1, liftDb (getUser db k).2) := by
  simp [jsGetUser, jsLookup_lift_hit db k u h, jsTruthy, jsJson, getUser, h,
    liftResponse, liftBody]

/-- Shared helper: on an identifier with a stored record the faithful PUT
agrees with the simple model on every branch — `putUser` is exactly the
own-property hit path of `jsPutUser`. -/
theorem jsPutUser_refines_putUser (db : String → Option User) (k : String)
    (u : User) (p : Payload) (h : db k = some u) :
    jsPutUser (liftDb db) k p =
      (liftResponse (putUser db k p).1, liftDb (putUser db k p).2) := by
  have hlk := jsLookup_lift_hit db k u h
  have hown : (liftDb db).own k = some (toJsRecord u) := by simp [liftDb, h]
  by_cases hreq : (falsy p.email || falsy p.firstName || falsy p.lastName) = true
  · simp [jsPutUser, hlk, jsTruthy, putUser, h, hreq, liftResponse, liftBody]
  · have he : falsy p.email = false := by
      rcases Bool.eq_false_or_eq_true (falsy p.email) with hE | hE
      · exact absurd (by rw [hE]; simp) hreq
      · exact hE
    have hf : falsy p.firstName = false := by
      rcases Bool.eq_false_or_eq_true (falsy p.firstName) with hE | hE
      · exact absurd (by rw [hE]; simp) hreq
      · exact hE
    have hl : falsy p.lastName = false := by
      rcases Bool.eq_false_or_eq_true (falsy p.lastName) with hE | hE
      · exact absurd (by rw [hE]; simp) hreq
      · exact hE
    by_cases hok : emailRegexTest (p.email.getD "") = true
    · have hpr : (liftDb db).protoReplaced = none := rfl
      rw [putUser_success db k u p h he hf hl hok, liftDb_update]
      simp [jsPutUser, hlk, jsTruthy, he, hf, hl, hok, jsAssign, hown, hpr,
        jsLookup, jsJson, Function.update_same, liftResponse, liftBody,
        mergeRecord, toJsRecord, spreadId, spreadChars]
    · have hok2 : emailRegexTest (p.email.getD "") = false := by
        rcases Bool.eq_false_or_eq_true (emailRegexTest (p.email.getD "")) with hE | hE
        · exact absurd hE hok
        · exact hE
      simp [jsPutUser, hlk, jsTruthy, putUser, h, he, hf, hl, hok2,
        liftResponse, liftBody]

/-- Shared helper: `x || null` never stores an empty string. -/
theorem orNull_ne_empty (o : Option String) : orNull o ≠ some "" := by
  cases o with
  | none => simp [orNull]
  | some s =>
    by_cases hs : s.isEmpty
    · have hse : s = "" := (String.isEmpty_iff s).mp hs
      subst hse
      decide
    · simp only [orNull, hs, Bool.false_eq_true, if_false, ne_eq, Option.some.injEq]
      intro hcontra
      exact hs ((String.isEmpty_iff s).mpr hcontra)

/-- Shared helper: `x || null` stores `null` exactly for falsy inputs. -/
theorem orNull_eq_none_iff (o : Option String) :
    orNull o = none ↔ (o = none ∨ o = some "") := by
  cases o with
  | none => simp [orNull]
  | some s =>
    by_cases hs : s.isEmpty
    · have hse : s = "" := (String.isEmpty_iff s).mp hs
      subst hse
      decide
    · have hse : s ≠ "" := fun hcontra => hs ((String.isEmpty_iff s).mpr hcontra)
      simp [orNull, hs, hse]

example : emailRegexTest "john.doe@example.com" = true := by decide
example : emailRegexTest "not-an-email" = false := by decide
example : emailRegexTest "a@b.c" = true := by decide
example : emailRegexTest "a@b" = false := by decide
example : emailRegexTest "a@.c" = false := by decide
example : emailRegexTest "a@b." = false := by decide
example : emailRegexTest "a b@c.d" = false := by decide
example : emailRegexTest "a@b@c.d" = false := by decide
example : users "1" = some user1 := by decide

/-- Claim C1: for every identifier present in the record mapping, the fetch
operation returns status 200 with a body equal to exactly the stored record
for that identifier, and leaves the mapping unchanged. -/
theorem fetch_known_returns_record (db : String → Option User) (userId : String)
    (u : User) (h : db userId = some u) :
    getUser db userId = ({ status := 200, body := .user u }, db) := by
  simp [getUser, h]

/-- Witness for C1 at the seeded identifier "1". -/
theorem fetch_known_returns_record_witness :
    getUser users "1" = ({ status := 200, body := .user user1 }, users) :=
  fetch_known_returns_record users "1" user1 (by decide)

/-- Claim C2 (code_bug evidence): the claim says every identifier absent
from the record mapping fetches as 404, but `users["toString"]` is the
truthy inherited `Object.prototype.toString`, so the `if (!user)` branch
is skipped and GET /api/users/toString answers 200 (with the empty body
that serializing a function produces) although no record is stored under
"toString".  For genuinely chain-missing identifiers such as "99" the
handler does answer 404 naming the identifier. -/
theorem fetch_inherited_name_not_404 :
    initialState.own "toString" = none ∧
    (jsGetUser initialState "toString").1 =
      { status := 200, body := .emptyBody } ∧
    (jsGetUser initialState "toString").1.status ≠ 404 ∧
    (jsGetUser initialState "99").1 =
      { status := 404
        body := .message ("User with ID " ++ "99" ++ " not found") } := by
  refine ⟨by decide, by decide, by decide, by decide⟩

/-- Claim C3: for every known identifier and every payload in which email,
firstName, or lastName is missing or empty, the update operation returns
status 400 with a descriptive message and the mapping (hence the stored
record for that identifier) is unchanged. -/
theorem update_missing_required_400 (db : String → Option User) (userId : String)
    (u : User) (p : Payload) (h : db userId = some u)
    (hmiss : falsy p.email = true ∨ falsy p.firstName = true ∨ falsy p.lastName = true) :
    putUser db userId p =
      ({ status := 400
         body := .message "Email, firstName, and lastName are required fields" }, db) := by
  rcases hmiss with hm | hm | hm <;> simp [putUser, h, hm]

/-- Witness for C3: updating user "1" with a payload lacking email. -/
theorem update_missing_required_400_witness :
    putUser users "1" payloadMissingEmail =
      ({ status := 400
         body := .message "Email, firstName, and lastName are required fields" }, users) :=
  update_missing_required_400 users "1" user1 payloadMissingEmail (by decide)
    (Or.inl (by decide))

/-- Claim C4: for every known identifier and every payload whose required
fields are non-empty but whose email fails the format regex (for example
"not-an-email"), the update operation returns status 400 and the mapping is
unchanged. -/
theorem update_invalid_email_400 (db : String → Option User) (userId : String)
    (u : User) (p : Payload) (h : db userId = some u)
    (he : falsy p.email = false) (hf : falsy p.firstName = false)
    (hl : falsy p.lastName = false)
    (hbad : emailRegexTest (p.email.getD "") = false) :
    putUser db userId p =
      ({ status := 400, body := .message "Invalid email format" }, db) := by
  simp [putUser, h, he, hf, hl, hbad]

/-- Witness for C4: updating user "1" with email "not-an-email". -/
theorem update_invalid_email_400_witness :
    putUser users "1" payloadBadEmail =
      ({ status := 400, body := .message "Invalid email format" }, users) :=
  update_invalid_email_400 users "1" user1 payloadBadEmail (by decide)
    (by decide) (by decide) (by decide) (by decide)

/-- Claim C5: for every known identifier and every payload passing
validation, the update returns status 200 with the merged record, the
stored record is replaced by it (a subsequent fetch returns the new
values), and each optional field omitted from the payload is stored as
absent, not as an empty string. -/
theorem update_valid_200_and_persists (db : String → Option User) (userId : String)
    (u : User) (p : Payload) (h : db userId = some u)
    (he : falsy p.email = false) (hf : falsy p.firstName = false)
    (hl : falsy p.lastName = false)
    (hok : emailRegexTest (p.email.getD "") = true) :
    ∃ v : User,
      putUser db userId p =
        ({ status := 200, body := .user v }, Function.update db userId (some v)) ∧
      getUser (putUser db userId p).2 userId =
        ({ status := 200, body := .user v }, (putUser db userId p).2) ∧
      v.email = p.email.getD "" ∧
      v.firstName = p.firstName.getD "" ∧
      v.lastName = p.lastName.getD "" ∧
      (p.phoneNumber = none → v.phoneNumber = none) ∧
      (p.bio = none → v.bio = none) ∧
      v.phoneNumber ≠ some "" ∧ v.bio ≠ some "" := by
  have hs := putUser_success db userId u p h he hf hl hok
  refine ⟨mergeRecord u.id p, hs, ?_, rfl, rfl, rfl, ?_, ?_,
    orNull_ne_empty p.phoneNumber, orNull_ne_empty p.bio⟩
  · rw [hs]
    simp [getUser, Function.update_same]
  · intro hp
    simp [mergeRecord, orNull, hp]
  · intro hb
    simp [mergeRecord, orNull, hb]

/-- Witness for C5: a valid update of user "1" omitting phoneNumber. -/
theorem update_valid_200_and_persists_witness :
    ∃ v : User,
      putUser users "1" payloadValid =
        ({ status := 200, body := .user v }, Function.update users "1" (some v)) ∧
      getUser (putUser users "1" payloadValid).2 "1" =
        ({ status := 200, body := .user v }, (putUser users "1" payloadValid).2) ∧
      v.email = payloadValid.email.getD "" ∧
      v.firstName = payloadValid.firstName.getD "" ∧
      v.lastName = payloadValid.lastName.getD "" ∧
      (payloadValid.phoneNumber = none → v.phoneNumber = none) ∧
      (payloadValid.bio = none → v.bio = none) ∧
      v.phoneNumber ≠ some "" ∧ v.bio ≠ some "" :=
  update_valid_200_and_persists users "1" user1 payloadValid (by decide)
    (by decide) (by decide) (by decide) (by decide)

/-- Claim C6 (code_bug evidence): the claim says an absent identifier
updates as 404 for every payload, with lookup taking precedence over
validation; but PUT /api/users/toString with an empty body answers 400
(the truthy inherited `toString` skips the not-found branch, so
validation runs) although no record is stored under "toString".  For a
genuinely chain-missing identifier such as "99" the handler does answer
404 whatever the payload. -/
theorem update_inherited_name_not_404 :
    initialState.own "toString" = none ∧
    (jsPutUser initialState "toString" emptyPayload).1 =
      { status := 400
        body := .message "Email, firstName, and lastName are required fields" } ∧
    (jsPutUser initialState "toString" emptyPayload).1.status ≠ 404 ∧
    (jsPutUser initialState "99" emptyPayload).1 =
      { status := 404
        body := .message ("User with ID " ++ "99" ++ " not found") } := by
  refine ⟨by decide, by decide, by decide, by decide⟩

/-- Claim C7: for every known identifier whose stored id equals the mapping
key and every payload accepted by a successful update — including one that
sends an `id` property, which the handler never reads — the id field of the
stored record is unchanged and remains equal to the mapping key; the record
differs from the old one only in email, firstName, lastName, phoneNumber
and bio, the only other fields of the record. -/
theorem update_preserves_identifier (db : String → Option User) (userId : String)
    (u : User) (p : Payload) (h : db userId = some u) (hkey : u.id = userId)
    (he : falsy p.email = false) (hf : falsy p.firstName = false)
    (hl : falsy p.lastName = false)
    (hok : emailRegexTest (p.email.getD "") = true) :
    ∃ v : User, (putUser db userId p).2 userId = some v ∧
      v.id = u.id ∧ v.id = userId := by
  refine ⟨mergeRecord u.id p, ?_, rfl, hkey⟩
  rw [putUser_success db userId u p h he hf hl hok]
  simp [Function.update_same]

/-- Witness for C7: a valid update of user "1" sending id "999" leaves the
stored id equal to "1". -/
theorem update_preserves_identifier_witness :
    ∃ v : User, (putUser users "1" payloadValid2).2 "1" = some v ∧
      v.id = user1.id ∧ v.id = "1" :=
  update_preserves_identifier users "1" user1 payloadValid2 (by decide) (by decide)
    (by decide) (by decide) (by decide) (by decide)

/-- Claim C8 (code_bug evidence): the claim says no request ever creates a
record, the identifier set staying at the three seeded at startup; but
PUT /api/users/hasOwnProperty with a valid payload passes validation (the
truthy inherited method skips the not-found branch) and the assignment
`users[userId] = ...` creates a fourth own-property record — one with no
`id` property, since spreading a function contributes nothing — which a
subsequent fetch then serves with status 200. -/
theorem update_inherited_name_creates_record :
    initialState.own "hasOwnProperty" = none ∧
    (jsPutUser initialState "hasOwnProperty" payloadValid).1.status = 200 ∧
    (jsPutUser initialState "hasOwnProperty" payloadValid).2.own "hasOwnProperty" =
      some { strSpread := none, id := none, email := "new.email@example.com"
             firstName := "Johnny", lastName := "Doette"
             phoneNumber := none, bio := some "Updated profile." } ∧
    (jsGetUser (jsPutUser initialState "hasOwnProperty" payloadValid).2
       "hasOwnProperty").1.status = 200 := by
  refine ⟨by decide, by decide, by decide, by decide⟩

/-- Claim C9: two update requests racing on the same identifier.  In the
handler the read of the stored record, the validation and the write-back
form one synchronous block with no intervening await, so on the
single-threaded event loop the two commits serialize in some order and
each is atomic; both orders are instances of this statement (swap the two
universally quantified payloads).  When both succeed, the record a
subsequent fetch observes is the full merge of exactly one of the two
submitted payloads onto the original id — never a hybrid mixing fields of
both, because a successful merge overwrites every field except id. -/
theorem concurrent_updates_one_payload_wins (db : String → Option User)
    (userId : String) (u : User) (p1 p2 : Payload) (h : db userId = some u)
    (he1 : falsy p1.email = false) (hf1 : falsy p1.firstName = false)
    (hl1 : falsy p1.lastName = false)
    (hok1 : emailRegexTest (p1.email.getD "") = true)
    (he2 : falsy p2.email = false) (hf2 : falsy p2.firstName = false)
    (hl2 : falsy p2.lastName = false)
    (hok2 : emailRegexTest (p2.email.getD "") = true) :
    (putUser db userId p1).1.status = 200 ∧
    (putUser (putUser db userId p1).2 userId p2).1.status = 200 ∧
    ∃ v : User,
      (getUser (putUser (putUser db userId p1).2 userId p2).2 userId).1 =
        { status := 200, body := .user v } ∧
      (v = mergeRecord u.id p1 ∨ v = mergeRecord u.id p2) := by
  have hs1 := putUser_success db userId u p1 h he1 hf1 hl1 hok1
  have hdb1 : (putUser db userId p1).2 userId = some (mergeRecord u.id p1) := by
    rw [hs1]
    simp [Function.update_same]
  have hs2 := putUser_success (putUser db userId p1).2 userId (mergeRecord u.id p1)
    p2 hdb1 he2 hf2 hl2 hok2
  have hdb2 : (putUser (putUser db userId p1).2 userId p2).2 userId =
      some (mergeRecord u.id p2) := by
    rw [hs2]
    simp only [Function.update_same]
    rfl
  refine ⟨by rw [hs1], by rw [hs2], mergeRecord u.id p2, ?_, Or.inr rfl⟩
  simp [getUser, hdb2]

/-- Witness for C9: two valid racing updates of user "1"; the surviving
record is the merge of the second payload. -/
theorem concurrent_updates_one_payload_wins_witness :
    (putUser users "1" payloadValid).1.status = 200 ∧
    (putUser (putUser users "1" payloadValid).2 "1" payloadValid2).1.status = 200 ∧
    ∃ v : User,
      (getUser (putUser (putUser users "1" payloadValid).2 "1" payloadValid2).2 "1").1 =
        { status := 200, body := .user v } ∧
      (v = mergeRecord user1.id payloadValid ∨ v = mergeRecord user1.id payloadValid2) :=
  concurrent_updates_one_payload_wins users "1" user1 payloadValid payloadValid2
    (by decide) (by decide) (by decide) (by decide) (by decide)
    (by decide) (by decide) (by decide) (by decide)

/-- Claim C10: for every successful update, an optional field submitted as
an empty string or omitted is stored as null: the stored optional field is
absent if and only if the submitted value is absent, null, or empty. -/
theorem optional_null_iff_falsy (db : String → Option User) (userId : String)
    (u : User) (p : Payload) (h : db userId = some u)
    (he : falsy p.email = false) (hf : falsy p.firstName = false)
    (hl : falsy p.lastName = false)
    (hok : emailRegexTest (p.email.getD "") = true) :
    ∃ v : User, (putUser db userId p).2 userId = some v ∧
      (v.phoneNumber = none ↔ (p.phoneNumber = none ∨ p.phoneNumber = some "")) ∧
      (v.bio = none ↔ (p.bio = none ∨ p.bio = some "")) := by
  refine ⟨mergeRecord u.id p, ?_, orNull_eq_none_iff p.phoneNumber,
    orNull_eq_none_iff p.bio⟩
  rw [putUser_success db userId u p h he hf hl hok]
  simp [Function.update_same]

/-- Witness for C10: payloadValid2 sends phoneNumber as "" and omits bio;
both are stored as null. -/
theorem optional_null_iff_falsy_witness :
    ∃ v : User, (putUser users "2" payloadValid2).2 "2" = some v ∧
      (v.phoneNumber = none ↔
        (payloadValid2.phoneNumber = none ∨ payloadValid2.phoneNumber = some "")) ∧
      (v.bio = none ↔ (payloadValid2.bio = none ∨ payloadValid2.bio = some "")) :=
  optional_null_iff_falsy users "2" user2 payloadValid2 (by decide)
    (by decide) (by decide) (by decide) (by decide)

end MockServer
